import Mathlib

/-!
Verification development for the `showerOS` smart-shower controller
(`src/showerOS`).  The Python source is shallowly embedded: each class
becomes a structure, each method a pure function on that structure, and
every callback invocation (`self.on_xxx(...)`) is recorded as an emitted
`Event`.  Python floats are modelled as exact rationals; `time.time()`
values are passed explicitly as a `now : ℚ` argument.
-/

namespace ShowerOS

/-- `ValveState` from `core/water_control.py`. -/
inductive ValveState where
  | CLOSED
  | OPEN
  | PARTIAL
deriving DecidableEq, Repr

/-- `FlowState` from `core/water_control.py`. -/
inductive FlowState where
  | STOPPED
  | FLOWING
  | ADJUSTING
deriving DecidableEq, Repr

/-- `SafetyState` from `core/safety_monitor.py`. -/
inductive SafetyState where
  | SAFE
  | WARNING
  | DANGER
  | EMERGENCY
deriving DecidableEq, Repr

/-- `SensorState` from `core/safety_monitor.py` (door sensor reading). -/
inductive SensorState where
  | OPEN
  | CLOSED
  | UNKNOWN
deriving DecidableEq, Repr

/-- One callback invocation made by the code.  Each constructor corresponds
to one `self.on_xxx(...)` call site (or, for the audio / notification
events, to the external-collaborator calls made by `main.py`). -/
inductive Event where
  | on_flow_start (target : ℚ)
  | on_flow_stop
  | on_temperature_change (t : ℚ)
  | on_door_open
  | on_door_close
  | on_leak_detected
  | on_emergency_stop (reason : String)
  | on_safety_warning (msg : String)
  | audio_start (source : String)
  | audio_stop
  | emergency_notification (msg : String)
deriving DecidableEq, Repr

/-- The mutable state of `WaterController` (`core/water_control.py`,
`__init__` lines 41-66 plus the limits loaded by `_load_settings`). -/
structure WaterController where
  current_temperature : ℚ
  target_temperature : ℚ
  max_temperature : ℚ
  min_temperature : ℚ
  flow_rate : ℚ
  pressure : ℚ
  valve_state : ValveState
  flow_state : FlowState
  hot_valve_open : Bool
  cold_valve_open : Bool
  mixer_valve_position : ℚ
deriving DecidableEq, Repr

/-- Python's built-in `abs` on a rational. -/
def pyabs (x : ℚ) : ℚ := if x < 0 then -x else x

namespace WaterController

/-- `max(self.min_temperature, min(self.max_temperature, temperature))`,
the clamp used by `start_flow` and `set_temperature`. -/
def clamp (wc : WaterController) (t : ℚ) : ℚ :=
  max wc.min_temperature (min wc.max_temperature t)

/-- The state after `__init__` followed by `_load_settings` (the config
supplies `default_temperature`, `max_temperature`, `min_temperature`). -/
def init (defaultT maxT minT : ℚ) : WaterController :=
  { current_temperature := 20
    target_temperature := defaultT
    max_temperature := maxT
    min_temperature := minT
    flow_rate := 0
    pressure := 0
    valve_state := ValveState.CLOSED
    flow_state := FlowState.STOPPED
    hot_valve_open := false
    cold_valve_open := false
    mixer_valve_position := 1/2 }

/-- `_open_valves` (lines 265-276). -/
def open_valves (wc : WaterController) : WaterController :=
  { wc with hot_valve_open := true, cold_valve_open := true,
            mixer_valve_position := 1/2, valve_state := ValveState.OPEN }

/-- `_close_valves` (lines 278-287). -/
def close_valves (wc : WaterController) : WaterController :=
  { wc with hot_valve_open := false, cold_valve_open := false,
            mixer_valve_position := 0, valve_state := ValveState.CLOSED }

/-- `start_flow(temperature)` (lines 128-146): optional re-target with
clamping, open the valves, set ADJUSTING and the default 8 L/min rate,
fire `on_flow_start`. -/
def start_flow (wc : WaterController) (temperature : Option ℚ) :
    WaterController × List Event :=
  let wc1 := match temperature with
    | some t => { wc with target_temperature := wc.clamp t }
    | none => wc
  let wc2 := { wc1.open_valves with flow_state := FlowState.ADJUSTING, flow_rate := 8 }
  (wc2, [Event.on_flow_start wc2.target_temperature])

/-- `stop_flow()` (lines 148-163): close valves, STOPPED, zero rate,
fire `on_flow_stop` (unconditionally, on every call). -/
def stop_flow (wc : WaterController) : WaterController × List Event :=
  ({ wc.close_valves with flow_state := FlowState.STOPPED, flow_rate := 0 },
   [Event.on_flow_stop])

/-- `emergency_stop()` (lines 305-319): immediately close everything and
fire `on_flow_stop` (unconditionally, on every call). -/
def emergency_stop (wc : WaterController) : WaterController × List Event :=
  ({ wc with hot_valve_open := false, cold_valve_open := false,
             mixer_valve_position := 0, valve_state := ValveState.CLOSED,
             flow_state := FlowState.STOPPED, flow_rate := 0 },
   [Event.on_flow_stop])

/-- `set_temperature(temperature)` (lines 165-172): clamp, then update the
target only when the clamped request differs from the current target by
more than 0.5 °C. -/
def set_temperature (wc : WaterController) (temperature : ℚ) : WaterController :=
  let t := wc.clamp temperature
  if pyabs (t - wc.target_temperature) > 1/2 then
    { wc with target_temperature := t }
  else wc

/-- `set_flow_rate(flow_rate)` (lines 174-180): clamp to [0, 15]. -/
def set_flow_rate (wc : WaterController) (r : ℚ) : WaterController :=
  { wc with flow_rate := max 0 (min 15 r) }

/-- `_read_sensors` (lines 223-238): while the flow is not STOPPED, move
the measured temperature one step of `temp_diff * 0.1` toward the target
whenever the remaining error exceeds 0.1, firing `on_temperature_change`. -/
def read_sensors (wc : WaterController) : WaterController × List Event :=
  if wc.flow_state ≠ FlowState.STOPPED then
    if pyabs (wc.target_temperature - wc.current_temperature) > 1/10 then
      let c := wc.current_temperature +
        (wc.target_temperature - wc.current_temperature) * (1/10)
      ({ wc with current_temperature := c }, [Event.on_temperature_change c])
    else (wc, [])
  else (wc, [])

/-- `_adjust_temperature` (lines 240-253): nudge the mixer valve by 0.01
toward hot or cold while the error exceeds 0.5, clamped to [0, 1]. -/
def adjust_temperature (wc : WaterController) : WaterController :=
  let d := wc.target_temperature - wc.current_temperature
  if pyabs d > 1/2 then
    if d > 0 then
      { wc with mixer_valve_position := min 1 (wc.mixer_valve_position + 1/100) }
    else
      { wc with mixer_valve_position := max 0 (wc.mixer_valve_position - 1/100) }
  else wc

/-- `_check_safety` (lines 289-303): over-temperature → `stop_flow()`;
over-pressure (> 5 bar) → `stop_flow()`; the low-flow branch
(`flow_state == FLOWING and flow_rate < 0.5`) only logs. -/
def check_safety (wc : WaterController) : WaterController × List Event :=
  let p1 := if wc.current_temperature > wc.max_temperature then wc.stop_flow else (wc, [])
  let p2 := if p1.1.pressure > 5 then p1.1.stop_flow else (p1.1, [])
  (p2.1, p1.2 ++ p2.2)

/-- One iteration of `_control_loop` (lines 203-221): read sensors, run
`_adjust_temperature` only when FLOWING, then `_check_safety`. -/
def tick (wc : WaterController) : WaterController × List Event :=
  let p1 := wc.read_sensors
  let wc2 := if p1.1.flow_state = FlowState.FLOWING then p1.1.adjust_temperature else p1.1
  let p2 := wc2.check_safety
  (p2.1, p1.2 ++ p2.2)

end WaterController

/-- Reachability of a `WaterController` state: the initial state (any
configured limits), closed under every operation the repository invokes on
the controller (`main.py` calls `start_flow` / `stop_flow`; the mobile and
web layers reach `set_temperature` / `set_flow_rate`; `emergency_stop` is
the fail-safe path; `tick` is the periodic `_control_loop` body). -/
inductive WaterReachable : WaterController → Prop where
  | init (defaultT maxT minT : ℚ) : WaterReachable (WaterController.init defaultT maxT minT)
  | start_flow (wc : WaterController) (t : Option ℚ) :
      WaterReachable wc → WaterReachable (wc.start_flow t).1
  | stop_flow (wc : WaterController) :
      WaterReachable wc → WaterReachable wc.stop_flow.1
  | set_temperature (wc : WaterController) (t : ℚ) :
      WaterReachable wc → WaterReachable (wc.set_temperature t)
  | set_flow_rate (wc : WaterController) (r : ℚ) :
      WaterReachable wc → WaterReachable (wc.set_flow_rate r)
  | emergency_stop (wc : WaterController) :
      WaterReachable wc → WaterReachable wc.emergency_stop.1
  | tick (wc : WaterController) :
      WaterReachable wc → WaterReachable wc.tick.1

/-- The door-timeout task created by `start_door_timer`
(`core/safety_monitor.py`, an `asyncio` task that sleeps `door_timeout`
seconds and then runs `_door_timeout_handler`).  `started_at` is the time
the task was created; `expired` records that the sleep has elapsed and the
handler body has run (a cancelled task is simply discarded, every cancel
site immediately reassigns or clears `door_timer`). -/
structure DoorTimer where
  started_at : ℚ
  expired : Bool
deriving DecidableEq, Repr

/-- The mutable state of `SafetyMonitor` (`core/safety_monitor.py`,
`__init__` lines 42-79 plus the settings loaded by `_load_safety_settings`). -/
structure SafetyMonitor where
  safety_state : SafetyState
  door_state : SensorState
  leak_detected : Bool
  emergency_stop_active : Bool
  door_timer : Option DoorTimer
  door_timeout : ℚ
  max_shower_duration : ℚ
  shower_start_time : Option ℚ
  last_door_open_time : Option ℚ
  door_sensor_active : Bool
  leak_sensor_active : Bool
  emergency_button_pressed : Bool
deriving DecidableEq, Repr

namespace SafetyMonitor

/-- The state after `__init__` followed by `_initialize_safety_state` and
`_load_safety_settings` (door timeout and max duration from config,
defaults 600 s and 1800 s). -/
def init (doorTimeout maxDuration : ℚ) : SafetyMonitor :=
  { safety_state := SafetyState.SAFE
    door_state := SensorState.UNKNOWN
    leak_detected := false
    emergency_stop_active := false
    door_timer := none
    door_timeout := doorTimeout
    max_shower_duration := maxDuration
    shower_start_time := none
    last_door_open_time := none
    door_sensor_active := false
    leak_sensor_active := false
    emergency_button_pressed := false }

/-- `emergency_stop(reason)` (lines 213-222): set the latch and the
EMERGENCY state and invoke `on_emergency_stop` — on every call. -/
def emergency_stop (m : SafetyMonitor) (reason : String) :
    SafetyMonitor × List Event :=
  ({ m with emergency_stop_active := true, safety_state := SafetyState.EMERGENCY },
   [Event.on_emergency_stop reason])

/-- `start_door_timer` (lines 181-187): cancel any running timer task and
create a fresh one (full `door_timeout` countdown from `now`).
`reset_door_timer` (lines 189-195) has exactly the same effect. -/
def start_door_timer (m : SafetyMonitor) (now : ℚ) : SafetyMonitor :=
  { m with door_timer := some { started_at := now, expired := false } }

/-- `start_shower_session` (lines 155-165): record the start time, reset
the state to SAFE, and start the door timer — unconditionally, whatever
the current `door_state`. -/
def start_shower_session (m : SafetyMonitor) (now : ℚ) : SafetyMonitor :=
  ({ m with shower_start_time := some now,
            safety_state := SafetyState.SAFE }).start_door_timer now

/-- `stop_shower_session` (lines 167-179): cancel the door timer, clear
the start time, and reset `safety_state` to SAFE — unconditionally, even
from EMERGENCY (`emergency_stop_active` is left untouched). -/
def stop_shower_session (m : SafetyMonitor) : SafetyMonitor :=
  { m with door_timer := none, shower_start_time := none,
           safety_state := SafetyState.SAFE }

/-- The body of `_door_timeout_handler` after the sleep (lines 197-211):
trigger `emergency_stop` only when the door currently reads CLOSED. -/
def door_timeout_handler (m : SafetyMonitor) : SafetyMonitor × List Event :=
  if m.door_state = SensorState.CLOSED then
    m.emergency_stop "Door timeout - Auto-shutoff"
  else (m, [])

/-- The door-timer task becoming runnable at time `now`: when a timer is
armed, not yet run, and its `door_timeout` sleep has elapsed, run
`_door_timeout_handler` and mark the task done. -/
def fire_door_timer (m : SafetyMonitor) (now : ℚ) : SafetyMonitor × List Event :=
  match m.door_timer with
  | some t =>
      if ¬ t.expired ∧ t.started_at + m.door_timeout ≤ now then
        ({ m with door_timer := some { t with expired := true } }).door_timeout_handler
      else (m, [])
  | none => (m, [])

/-- The door part of `_read_sensors` (lines 269-284): refresh
`door_state` from the (simulated) sensor and fire
`on_door_open`/`on_door_close` on an edge. -/
def read_door (m : SafetyMonitor) (now : ℚ) : SafetyMonitor × List Event :=
  let m1 := { m with door_state :=
    if m.door_sensor_active then SensorState.OPEN else SensorState.CLOSED }
  if m.door_state ≠ m1.door_state then
    if m1.door_state = SensorState.OPEN then
      ({ m1 with last_door_open_time := some now }, [Event.on_door_open])
    else (m1, [Event.on_door_close])
  else (m1, [])

/-- The leak part of `_read_sensors` (lines 286-290): latch
`leak_detected` and fire `on_leak_detected` on its rising edge. -/
def read_leak (m : SafetyMonitor) : SafetyMonitor × List Event :=
  if m.leak_sensor_active ∧ ¬ m.leak_detected then
    ({ m with leak_detected := true }, [Event.on_leak_detected])
  else (m, [])

/-- The button part of `_read_sensors` (lines 292-294): call
`emergency_stop` whenever the emergency button reads pressed. -/
def read_button (m : SafetyMonitor) : SafetyMonitor × List Event :=
  if m.emergency_button_pressed then m.emergency_stop "Emergency button pressed"
  else (m, [])

/-- `_read_sensors` (lines 260-294): door, then leak, then button. -/
def read_sensors (m : SafetyMonitor) (now : ℚ) : SafetyMonitor × List Event :=
  let p2 := m.read_door now
  let p3 := p2.1.read_leak
  let p4 := p3.1.read_button
  (p4.1, p2.2 ++ p3.2 ++ p4.2)

/-- The duration part of `_check_safety_conditions` (lines 298-303):
session-duration overrun → `emergency_stop`. -/
def check_duration (m : SafetyMonitor) (now : ℚ) : SafetyMonitor × List Event :=
  match m.shower_start_time with
  | some t0 =>
      if now - t0 > m.max_shower_duration then
        m.emergency_stop "Maximum shower duration exceeded"
      else (m, [])
  | none => (m, [])

/-- The leak part of `_check_safety_conditions` (lines 305-309): a
latched leak → DANGER plus `on_safety_warning`. -/
def check_leak (m : SafetyMonitor) : SafetyMonitor × List Event :=
  if m.leak_detected then
    ({ m with safety_state := SafetyState.DANGER },
     [Event.on_safety_warning "Water leak detected"])
  else (m, [])

/-- The door part of `_check_safety_conditions` (lines 311-317): door
OPEN during a session → `reset_door_timer` (a restart, every tick). -/
def check_door (m : SafetyMonitor) (now : ℚ) : SafetyMonitor :=
  if m.door_state = SensorState.OPEN ∧ m.shower_start_time.isSome then
    m.start_door_timer now
  else m

/-- `_check_safety_conditions` (lines 296-317): duration, leak, door. -/
def check_safety_conditions (m : SafetyMonitor) (now : ℚ) :
    SafetyMonitor × List Event :=
  let p1 := m.check_duration now
  let p2 := p1.1.check_leak
  (p2.1.check_door now, p1.2 ++ p2.2)

/-- `_update_safety_state` (lines 319-337): EMERGENCY while the latch is
set, else DANGER on a latched leak, else WARNING when the door is closed
during a session and the timer task is done, else SAFE. -/
def update_safety_state (m : SafetyMonitor) : SafetyMonitor :=
  if m.emergency_stop_active then
    { m with safety_state := SafetyState.EMERGENCY }
  else if m.leak_detected then
    { m with safety_state := SafetyState.DANGER }
  else if m.door_state = SensorState.CLOSED ∧ m.shower_start_time.isSome then
    if (match m.door_timer with | some t => t.expired | none => false) then
      { m with safety_state := SafetyState.WARNING }
    else
      { m with safety_state := SafetyState.SAFE }
  else
    { m with safety_state := SafetyState.SAFE }

/-- One iteration of `_control_loop` (lines 241-258): `_read_sensors`,
`_check_safety_conditions`, `_update_safety_state`. -/
def tick (m : SafetyMonitor) (now : ℚ) : SafetyMonitor × List Event :=
  let p1 := m.read_sensors now
  let p2 := p1.1.check_safety_conditions now
  (p2.1.update_safety_state, p1.2 ++ p2.2)

end SafetyMonitor

/-- The composed system of `main.py` (`SmartShowerOS`): the water
controller, the safety monitor, the coordinator's `shower_active` flag and
its `self.emergency_stop` flag.  The audio manager and mobile API are
external collaborators; the calls `main.py` makes into them are recorded
as `Event.audio_start` / `Event.audio_stop` /
`Event.emergency_notification`. -/
structure ShowerSystem where
  water : WaterController
  safety : SafetyMonitor
  shower_active : Bool
  emergency_stop_flag : Bool
deriving DecidableEq, Repr

namespace ShowerSystem

/-- `SmartShowerOS.stop_shower` (`main.py` lines 161-180): stop the water
flow, stop audio, stop the safety session, clear `shower_active`. -/
def stop_shower (s : ShowerSystem) : ShowerSystem × List Event :=
  let pw := s.water.stop_flow
  ({ s with water := pw.1, safety := s.safety.stop_shower_session,
            shower_active := false },
   pw.2 ++ [Event.audio_stop])

/-- `SmartShowerOS.start_shower` (`main.py` lines 139-159): start the
water flow at the requested temperature, start audio if a source was
given, start the safety session, set `shower_active`.  There is no guard
on an already-active session. -/
def start_shower (s : ShowerSystem) (temperature : ℚ)
    (audio_source : Option String) (now : ℚ) : ShowerSystem × List Event :=
  let pw := s.water.start_flow (some temperature)
  let audioEvs := match audio_source with
    | some src => [Event.audio_start src]
    | none => []
  ({ s with water := pw.1, safety := s.safety.start_shower_session now,
            shower_active := true },
   pw.2 ++ audioEvs)

/-- `SafetyMonitor.emergency_stop` as it runs in the composed system: the
wired `on_emergency_stop` handler is `SmartShowerOS._on_emergency_stop`
(`main.py` lines 214-219), which sets the coordinator's emergency flag,
runs `stop_shower`, and sends an emergency notification. -/
def sys_emergency_stop (s : ShowerSystem) (reason : String) :
    ShowerSystem × List Event :=
  let s1 := { s with
    safety := { s.safety with emergency_stop_active := true,
                              safety_state := SafetyState.EMERGENCY },
    emergency_stop_flag := true }
  let p := s1.stop_shower
  (p.1, Event.on_emergency_stop reason ::
    (p.2 ++ [Event.emergency_notification "Emergency stop activated!"]))

/-- `SafetyMonitor._read_sensors` as it runs in the composed system, with
the wired handlers inlined at the callback sites: `_on_door_open` calls
`reset_door_timer`, `_on_door_close` calls `start_door_timer`
(`main.py` lines 195-205), `_on_leak_detected` runs `stop_shower` plus a
notification (lines 207-212), and the emergency-button branch is
`sys_emergency_stop`. -/
def sys_read_sensors (s : ShowerSystem) (now : ℚ) : ShowerSystem × List Event :=
  let m := s.safety
  let old := m.door_state
  let m1 := { m with door_state :=
    if m.door_sensor_active then SensorState.OPEN else SensorState.CLOSED }
  let p2 : SafetyMonitor × List Event :=
    if old ≠ m1.door_state then
      if m1.door_state = SensorState.OPEN then
        (({ m1 with last_door_open_time := some now }).start_door_timer now,
         [Event.on_door_open])
      else (m1.start_door_timer now, [Event.on_door_close])
    else (m1, [])
  let s2 := { s with safety := p2.1 }
  let p3 : ShowerSystem × List Event :=
    if s2.safety.leak_sensor_active ∧ ¬ s2.safety.leak_detected then
      let s3 := { s2 with safety := { s2.safety with leak_detected := true } }
      let q := s3.stop_shower
      (q.1, Event.on_leak_detected ::
        (q.2 ++ [Event.emergency_notification "Water leak detected!"]))
    else (s2, [])
  let p4 : ShowerSystem × List Event :=
    if p3.1.safety.emergency_button_pressed then
      p3.1.sys_emergency_stop "Emergency button pressed"
    else (p3.1, [])
  (p4.1, p2.2 ++ p3.2 ++ p4.2)

/-- The duration part of `_check_safety_conditions` in the composed
system: an overrun runs the emergency stop through the coordinator. -/
def sys_check_duration (s : ShowerSystem) (now : ℚ) : ShowerSystem × List Event :=
  match s.safety.shower_start_time with
  | some t0 =>
      if now - t0 > s.safety.max_shower_duration then
        s.sys_emergency_stop "Maximum shower duration exceeded"
      else (s, [])
  | none => (s, [])

/-- The leak part of `_check_safety_conditions` in the composed system:
a latched leak sets DANGER; `on_safety_warning` is never wired by
`main.py`, so no call is made. -/
def sys_check_leak (s : ShowerSystem) : ShowerSystem :=
  if s.safety.leak_detected then
    { s with safety := { s.safety with safety_state := SafetyState.DANGER } }
  else s

/-- The door part of `_check_safety_conditions` in the composed system:
door OPEN during a session restarts the door timer. -/
def sys_check_door (s : ShowerSystem) (now : ℚ) : ShowerSystem :=
  if s.safety.door_state = SensorState.OPEN ∧ s.safety.shower_start_time.isSome then
    { s with safety := s.safety.start_door_timer now }
  else s

/-- `SafetyMonitor._check_safety_conditions` in the composed system:
duration, leak, door. -/
def sys_check_safety_conditions (s : ShowerSystem) (now : ℚ) :
    ShowerSystem × List Event :=
  let p1 := s.sys_check_duration now
  ((p1.1.sys_check_leak).sys_check_door now, p1.2)

/-- One iteration of the safety `_control_loop` in the composed system. -/
def safety_tick (s : ShowerSystem) (now : ℚ) : ShowerSystem × List Event :=
  let p1 := s.sys_read_sensors now
  let p2 := p1.1.sys_check_safety_conditions now
  ({ p2.1 with safety := p2.1.safety.update_safety_state }, p1.2 ++ p2.2)

/-- The door-timer task firing in the composed system: when armed, not yet
run, and past its deadline, mark it done and — if the door reads CLOSED —
run the emergency stop through the coordinator. -/
def sys_fire_door_timer (s : ShowerSystem) (now : ℚ) : ShowerSystem × List Event :=
  match s.safety.door_timer with
  | some t =>
      if ¬ t.expired ∧ t.started_at + s.safety.door_timeout ≤ now then
        let s1 := { s with safety :=
          { s.safety with door_timer := some { t with expired := true } } }
        if s1.safety.door_state = SensorState.CLOSED then
          s1.sys_emergency_stop "Door timeout - Auto-shutoff"
        else (s1, [])
      else (s, [])
  | none => (s, [])

end ShowerSystem

/-- `n` successive `_read_sensors` steps of the water controller
(`current_temperature` is only ever advanced there). -/
def read_iter (wc : WaterController) : ℕ → WaterController
  | 0 => wc
  | n + 1 => (read_iter wc n).read_sensors.1

/-! ### Concrete sample states used by the witnesses and counterexamples -/

/-- A water controller with the default configuration
(`default_temperature` 38, `max_temperature` 45, `min_temperature` 20). -/
def wcSample : WaterController := WaterController.init 38 45 20

/-- The sample controller after `start_flow(38.0)`: valves open, state
ADJUSTING. -/
def wcActive : WaterController := (wcSample.start_flow (some 38)).1

/-- An active controller whose measured temperature sits exactly 0.1 °C
below its target. -/
def wcStall : WaterController :=
  { wcActive with current_temperature := 38, target_temperature := 381/10 }

/-- An active controller whose measured temperature is far above
`max_temperature`. -/
def wcHot : WaterController := { wcActive with current_temperature := 50 }

/-- A safety monitor with the default configuration (door timeout 600 s,
max shower duration 1800 s). -/
def mSample : SafetyMonitor := SafetyMonitor.init 600 1800

/-- The sample monitor with the emergency button held down (door open and
steady, so door edges do not interfere). -/
def mButton : SafetyMonitor :=
  { mSample with emergency_button_pressed := true, door_sensor_active := true,
                 door_state := SensorState.OPEN }

/-- The sample monitor in an active emergency. -/
def mEmergency : SafetyMonitor :=
  { mSample with safety_state := SafetyState.EMERGENCY,
                 emergency_stop_active := true }

/-- The freshly initialized composed system. -/
def sysSample : ShowerSystem :=
  { water := wcSample, safety := mSample,
    shower_active := false, emergency_stop_flag := false }

/-- The composed system with no session active and the door just closed
(previous reading OPEN, sensor now reporting closed). -/
def sysNoSession : ShowerSystem :=
  { sysSample with safety := { mSample with door_state := SensorState.OPEN } }

/-- The composed system mid-session with the door closed, its timer armed
at time 0, and the door now swinging open. -/
def sysDoorOpening : ShowerSystem :=
  { water := wcActive,
    safety := { mSample with door_state := SensorState.CLOSED,
                             door_sensor_active := true,
                             shower_start_time := some 0,
                             door_timer := some { started_at := 0, expired := false } },
    shower_active := true, emergency_stop_flag := false }

/-! ### Theorems -/

theorem pyabs_eq_abs (x : ℚ) : pyabs x = |x| := by
  unfold pyabs
  rcases lt_or_le x 0 with h | h
  · rw [if_pos h, abs_of_neg h]
  · rw [if_neg (not_lt.mpr h), abs_of_nonneg h]

/-! #### Helper lemmas about the water controller -/

/-- `stop_flow` and `emergency_stop` assign exactly the same fields and
fire the same event: they are the same function on states. -/
theorem stop_flow_eq_emergency_stop (wc : WaterController) :
    wc.stop_flow = wc.emergency_stop := rfl

theorem stop_flow_state_idem (wc : WaterController) :
    wc.stop_flow.1.stop_flow.1 = wc.stop_flow.1 := rfl

/-- `_read_sensors` touches only `current_temperature`. -/
theorem read_sensors_preserves (wc : WaterController) :
    wc.read_sensors.1.target_temperature = wc.target_temperature ∧
    wc.read_sensors.1.max_temperature = wc.max_temperature ∧
    wc.read_sensors.1.min_temperature = wc.min_temperature ∧
    wc.read_sensors.1.pressure = wc.pressure ∧
    wc.read_sensors.1.flow_state = wc.flow_state ∧
    wc.read_sensors.1.flow_rate = wc.flow_rate := by
  simp only [WaterController.read_sensors]
  split
  · split
    · exact ⟨rfl, rfl, rfl, rfl, rfl, rfl⟩
    · exact ⟨rfl, rfl, rfl, rfl, rfl, rfl⟩
  · exact ⟨rfl, rfl, rfl, rfl, rfl, rfl⟩

/-- `_adjust_temperature` touches only `mixer_valve_position`. -/
theorem adjust_temperature_preserves (wc : WaterController) :
    wc.adjust_temperature.current_temperature = wc.current_temperature ∧
    wc.adjust_temperature.max_temperature = wc.max_temperature ∧
    wc.adjust_temperature.pressure = wc.pressure ∧
    wc.adjust_temperature.flow_state = wc.flow_state := by
  simp only [WaterController.adjust_temperature]
  split
  · split
    · exact ⟨rfl, rfl, rfl, rfl⟩
    · exact ⟨rfl, rfl, rfl, rfl⟩
  · exact ⟨rfl, rfl, rfl, rfl⟩

/-- `stop_flow` wipes the only field `_adjust_temperature` can change. -/
theorem stop_flow_adjust (wc : WaterController) :
    wc.adjust_temperature.stop_flow.1 = wc.stop_flow.1 := by
  simp only [WaterController.adjust_temperature]
  split
  · split
    · rfl
    · rfl
  · rfl

/-- `_check_safety` under over-temperature: the flow is stopped and the
stop event fires, whatever the pressure branch then does. -/
theorem check_safety_overtemp (wc : WaterController)
    (h : wc.max_temperature < wc.current_temperature) :
    wc.check_safety.1 = wc.stop_flow.1 ∧ Event.on_flow_stop ∈ wc.check_safety.2 := by
  simp only [WaterController.check_safety]
  rw [if_pos h]
  by_cases hp : wc.stop_flow.1.pressure > 5
  · rw [if_pos hp]
    exact ⟨stop_flow_state_idem wc, by simp [WaterController.stop_flow]⟩
  · rw [if_neg hp]
    exact ⟨rfl, by simp [WaterController.stop_flow]⟩

/-- `_check_safety` either leaves `flow_state` alone or stops the flow. -/
theorem check_safety_flow_state (wc : WaterController) :
    wc.check_safety.1.flow_state = wc.flow_state ∨
    wc.check_safety.1.flow_state = FlowState.STOPPED := by
  simp only [WaterController.check_safety]
  split
  · right
    split
    · rfl
    · rfl
  · split
    · right; rfl
    · left; rfl

/-- One control-loop tick either preserves `flow_state` or stops the flow. -/
theorem tick_flow_state (wc : WaterController) :
    wc.tick.1.flow_state = wc.flow_state ∨
    wc.tick.1.flow_state = FlowState.STOPPED := by
  simp only [WaterController.tick]
  have hr := (read_sensors_preserves wc).2.2.2.2.1
  split
  · rcases check_safety_flow_state wc.read_sensors.1.adjust_temperature with h | h
    · left
      rw [h, (adjust_temperature_preserves wc.read_sensors.1).2.2.2, hr]
    · right; exact h
  · rcases check_safety_flow_state wc.read_sensors.1 with h | h
    · left; rw [h, hr]
    · right; exact h

/-- The clamp lands inside the configured band. -/
theorem clamp_mem (wc : WaterController) (h : wc.min_temperature ≤ wc.max_temperature)
    (t : ℚ) : wc.min_temperature ≤ wc.clamp t ∧ wc.clamp t ≤ wc.max_temperature :=
  ⟨le_max_left _ _, max_le h (min_le_left _ _)⟩

/-! #### C9 -/

/-- C9, counterexample.  The claim says `set_target(t)` always records the
clamped value.  With the default configuration (target 38, band [20, 45])
the request 38.3 clamps to itself, yet the recorded target stays 38: the
0.5 °C deadband of `set_temperature` drops the update. -/
theorem c9_counterexample :
    wcSample.clamp (383/10) = 383/10 ∧
    (wcSample.set_temperature (383/10)).target_temperature = 38 ∧
    (38 : ℚ) ≠ 383/10 := by
  refine ⟨?_, ?_, by norm_num⟩
  · norm_num [wcSample, WaterController.init, WaterController.clamp]
  · norm_num [wcSample, WaterController.init, WaterController.set_temperature,
      WaterController.clamp, pyabs]

/-- C9, amended.  `set_temperature(t)` clamps `t` into
[`min_temperature`, `max_temperature`] and records the clamped value only
when it differs from the current target by more than 0.5 °C; otherwise the
target is left unchanged.  Consequently, whenever the configured band is
nonempty and the previous target lay inside it, the target after the call
still lies inside it, regardless of `t`'s sign or magnitude. -/
theorem c9_set_temperature_deadband (wc : WaterController) (t : ℚ) :
    ((wc.set_temperature t).target_temperature = wc.clamp t ∧
        1/2 < pyabs (wc.clamp t - wc.target_temperature) ∨
      (wc.set_temperature t).target_temperature = wc.target_temperature ∧
        pyabs (wc.clamp t - wc.target_temperature) ≤ 1/2) ∧
    (wc.min_temperature ≤ wc.max_temperature →
      wc.min_temperature ≤ wc.target_temperature →
      wc.target_temperature ≤ wc.max_temperature →
      wc.min_temperature ≤ (wc.set_temperature t).target_temperature ∧
        (wc.set_temperature t).target_temperature ≤ wc.max_temperature) := by
  simp only [WaterController.set_temperature]
  by_cases hgt : pyabs (wc.clamp t - wc.target_temperature) > 1/2
  · rw [if_pos hgt]
    exact ⟨Or.inl ⟨rfl, hgt⟩, fun hmm _ _ => clamp_mem wc hmm t⟩
  · rw [if_neg hgt]
    exact ⟨Or.inr ⟨rfl, not_lt.mp hgt⟩, fun _ h1 h2 => ⟨h1, h2⟩⟩

/-- C9, witness: an out-of-band request (100 °C) on the default
configuration leaves the recorded target inside [20, 45]. -/
theorem c9_witness :
    wcSample.min_temperature ≤ (wcSample.set_temperature 100).target_temperature ∧
    (wcSample.set_temperature 100).target_temperature ≤ wcSample.max_temperature :=
  (c9_set_temperature_deadband wcSample 100).2
    (by norm_num [wcSample, WaterController.init])
    (by norm_num [wcSample, WaterController.init])
    (by norm_num [wcSample, WaterController.init])

/-! #### C3 -/

/-- C3, counterexample.  From an active (valve OPEN) state, two
consecutive `emergency_stop()` calls fire `on_flow_stop` on each call —
two events in total, not "exactly once per active→closed transition". -/
theorem c3_counterexample :
    wcActive.valve_state = ValveState.OPEN ∧
    wcActive.emergency_stop.2 = [Event.on_flow_stop] ∧
    wcActive.emergency_stop.1.valve_state = ValveState.CLOSED ∧
    wcActive.emergency_stop.1.emergency_stop.2 = [Event.on_flow_stop] ∧
    wcActive.emergency_stop.2 ++ wcActive.emergency_stop.1.emergency_stop.2 ≠
      [Event.on_flow_stop] := by
  refine ⟨rfl, rfl, rfl, rfl, by simp [WaterController.emergency_stop]⟩

/-- C3, amended.  `stop_flow` and `emergency_stop` are the same function;
each call closes the valve and stops the flow, the state is idempotent
under repeated calls (the valve is CLOSED after the first call and the
state no longer changes), but `on_flow_stop` fires once per call — not
once per active→closed transition. -/
theorem c3_stop_idempotent_state_event_per_call (wc : WaterController) :
    wc.stop_flow = wc.emergency_stop ∧
    wc.emergency_stop.1.valve_state = ValveState.CLOSED ∧
    wc.emergency_stop.1.flow_state = FlowState.STOPPED ∧
    wc.emergency_stop.1.emergency_stop.1 = wc.emergency_stop.1 ∧
    wc.stop_flow.1.stop_flow.1 = wc.stop_flow.1 ∧
    wc.emergency_stop.2 = [Event.on_flow_stop] ∧
    wc.emergency_stop.1.emergency_stop.2 = [Event.on_flow_stop] :=
  ⟨rfl, rfl, rfl, rfl, rfl, rfl, rfl⟩

/-! #### C2 -/

/-- C2, confirmed.  Whenever the sensor read leaves the measured
temperature above `max_temperature`, the same control-loop tick ends in
exactly the state `emergency_stop` would produce (the code calls
`stop_flow()`, which assigns the same fields and fires the same event),
and the stop event fires on that tick. -/
theorem c2_overtemp_triggers_emergency_stop (wc : WaterController)
    (h : wc.read_sensors.1.max_temperature < wc.read_sensors.1.current_temperature) :
    wc.tick.1 = wc.read_sensors.1.emergency_stop.1 ∧
    Event.on_flow_stop ∈ wc.tick.2 := by
  simp only [WaterController.tick]
  by_cases hf : wc.read_sensors.1.flow_state = FlowState.FLOWING
  · rw [if_pos hf]
    have h2 : wc.read_sensors.1.adjust_temperature.max_temperature <
        wc.read_sensors.1.adjust_temperature.current_temperature := by
      rw [(adjust_temperature_preserves _).1, (adjust_temperature_preserves _).2.1]
      exact h
    obtain ⟨hs, hm⟩ := check_safety_overtemp _ h2
    refine ⟨?_, List.mem_append.mpr (Or.inr hm)⟩
    rw [hs, stop_flow_adjust]
    rfl
  · rw [if_neg hf]
    obtain ⟨hs, hm⟩ := check_safety_overtemp _ h
    exact ⟨by rw [hs]; rfl, List.mem_append.mpr (Or.inr hm)⟩

/-- C2, witness: an active controller measuring 50 °C (48.8 °C after the
read step) against a 45 °C limit is forced into the emergency-stop state
on that very tick. -/
theorem c2_witness :
    wcHot.read_sensors.1.max_temperature < wcHot.read_sensors.1.current_temperature ∧
    wcHot.tick.1 = wcHot.read_sensors.1.emergency_stop.1 ∧
    Event.on_flow_stop ∈ wcHot.tick.2 := by
  have h : wcHot.read_sensors.1.max_temperature < wcHot.read_sensors.1.current_temperature := by
    norm_num +decide [wcHot, wcActive, wcSample, WaterController.init,
      WaterController.start_flow, WaterController.open_valves, WaterController.clamp,
      WaterController.read_sensors, pyabs]
  exact ⟨h, c2_overtemp_triggers_emergency_stop wcHot h⟩

/-! #### C10 -/

/-- C10, confirmed.  No reachable state of the water controller has
`flow_state = FLOWING`: `start_flow` sets ADJUSTING, `stop_flow` and
`emergency_stop` set STOPPED, no operation assigns FLOWING, and the
control-loop tick preserves the flow state or stops it — so every branch
guarded by `flow_state == FLOWING` is dead. -/
theorem c10_flow_state_never_flowing (wc : WaterController)
    (h : WaterReachable wc) : wc.flow_state ≠ FlowState.FLOWING := by
  induction h with
  | init d mx mn => exact (by decide : FlowState.STOPPED ≠ FlowState.FLOWING)
  | start_flow wc t _ _ =>
      cases t <;>
        exact (by decide : FlowState.ADJUSTING ≠ FlowState.FLOWING)
  | stop_flow wc _ _ => exact (by decide : FlowState.STOPPED ≠ FlowState.FLOWING)
  | set_temperature wc t _ ih =>
      simp only [WaterController.set_temperature]
      split
      · exact ih
      · exact ih
  | set_flow_rate wc r _ ih => exact ih
  | emergency_stop wc _ _ => exact (by decide : FlowState.STOPPED ≠ FlowState.FLOWING)
  | tick wc _ ih =>
      rcases tick_flow_state wc with hfs | hfs
      · rw [hfs]; exact ih
      · rw [hfs]; exact (by decide : FlowState.STOPPED ≠ FlowState.FLOWING)

/-- C10, witness: the freshly configured controller is reachable and is
not FLOWING. -/
theorem c10_witness :
    WaterReachable wcSample ∧ wcSample.flow_state ≠ FlowState.FLOWING :=
  have hr : WaterReachable wcSample := WaterReachable.init 38 45 20
  ⟨hr, c10_flow_state_never_flowing wcSample hr⟩

/-! #### C8 -/

/-- One `_read_sensors` step while heating: the measured temperature never
decreases, never reaches the target, and strictly increases exactly while
the remaining error exceeds 0.1. -/
theorem read_step_heat (wc : WaterController)
    (hf : wc.flow_state ≠ FlowState.STOPPED)
    (hlt : wc.current_temperature < wc.target_temperature) :
    wc.current_temperature ≤ wc.read_sensors.1.current_temperature ∧
    wc.read_sensors.1.current_temperature < wc.target_temperature ∧
    (1/10 < wc.target_temperature - wc.current_temperature →
      wc.current_temperature < wc.read_sensors.1.current_temperature) := by
  simp only [WaterController.read_sensors]
  rw [if_pos hf]
  have hd : 0 < wc.target_temperature - wc.current_temperature := by linarith
  by_cases hgap : pyabs (wc.target_temperature - wc.current_temperature) > 1/10
  · rw [if_pos hgap]
    refine ⟨by simp only; linarith, by simp only; linarith, fun _ => by simp only; linarith⟩
  · rw [if_neg hgap]
    have habs : pyabs (wc.target_temperature - wc.current_temperature) =
        wc.target_temperature - wc.current_temperature := by
      unfold pyabs
      rw [if_neg (not_lt.mpr (le_of_lt hd))]
    refine ⟨le_refl _, hlt, fun hg => absurd ?_ hgap⟩
    rw [habs]
    exact hg

/-- One `_read_sensors` step while cooling: the measured temperature never
increases, never reaches the target, and strictly decreases exactly while
the remaining error exceeds 0.1. -/
theorem read_step_cool (wc : WaterController)
    (hf : wc.flow_state ≠ FlowState.STOPPED)
    (hgt : wc.target_temperature < wc.current_temperature) :
    wc.read_sensors.1.current_temperature ≤ wc.current_temperature ∧
    wc.target_temperature < wc.read_sensors.1.current_temperature ∧
    (1/10 < wc.current_temperature - wc.target_temperature →
      wc.read_sensors.1.current_temperature < wc.current_temperature) := by
  simp only [WaterController.read_sensors]
  rw [if_pos hf]
  have hd : wc.target_temperature - wc.current_temperature < 0 := by linarith
  by_cases hgap : pyabs (wc.target_temperature - wc.current_temperature) > 1/10
  · rw [if_pos hgap]
    refine ⟨by simp only; linarith, by simp only; linarith, fun _ => by simp only; linarith⟩
  · rw [if_neg hgap]
    have habs : pyabs (wc.target_temperature - wc.current_temperature) =
        -(wc.target_temperature - wc.current_temperature) := by
      unfold pyabs
      rw [if_pos hd]
    refine ⟨le_refl _, hgt, fun hg => absurd ?_ hgap⟩
    rw [habs]
    linarith

/-- Every `_read_sensors` iterate keeps the target and the flow state. -/
theorem read_iter_preserves (wc : WaterController) (n : ℕ) :
    (read_iter wc n).target_temperature = wc.target_temperature ∧
    (read_iter wc n).flow_state = wc.flow_state := by
  induction n with
  | zero => exact ⟨rfl, rfl⟩
  | succ n ih =>
      have h := read_sensors_preserves (read_iter wc n)
      exact ⟨h.1.trans ih.1, h.2.2.2.2.1.trans ih.2⟩

/-- C8, counterexample.  A controller with nonzero error exactly 0.1
(current 38, target 38.1, flow active) makes no progress at all: the
`_read_sensors` guard `abs(diff) > 0.1` is false, so the sequence of
measured temperatures is constant — not strictly monotonic, and it never
converges to the target. -/
theorem c8_counterexample :
    wcStall.flow_state ≠ FlowState.STOPPED ∧
    wcStall.current_temperature ≠ wcStall.target_temperature ∧
    wcStall.read_sensors = (wcStall, []) ∧
    (read_iter wcStall 1).current_temperature = wcStall.current_temperature := by
  refine ⟨?_, ?_, ?_, ?_⟩
  · norm_num +decide [wcStall, wcActive, wcSample, WaterController.init,
      WaterController.start_flow, WaterController.open_valves, WaterController.clamp]
  · norm_num [wcStall, wcActive, wcSample, WaterController.init,
      WaterController.start_flow, WaterController.open_valves, WaterController.clamp]
  · norm_num +decide [wcStall, wcActive, wcSample, WaterController.init,
      WaterController.start_flow, WaterController.open_valves, WaterController.clamp,
      WaterController.read_sensors, pyabs]
  · show (read_iter wcStall 0).read_sensors.1.current_temperature = wcStall.current_temperature
    norm_num +decide [read_iter, wcStall, wcActive, wcSample, WaterController.init,
      WaterController.start_flow, WaterController.open_valves, WaterController.clamp,
      WaterController.read_sensors, pyabs]

/-- C8, amended.  With a constant target and the flow active, the sequence
of measured temperatures produced by repeated `_read_sensors` steps is
monotone toward the target and never crosses it, in both directions; each
step is strict exactly while the remaining error exceeds the 0.1 dead
band, and once the error is ≤ 0.1 the sequence stays constant (it
approaches the target but stalls within 0.1 of it). -/
theorem c8_monotone_no_overshoot (wc : WaterController)
    (hf : wc.flow_state ≠ FlowState.STOPPED) :
    (wc.current_temperature < wc.target_temperature →
      ∀ n, (read_iter wc n).current_temperature ≤ (read_iter wc (n+1)).current_temperature ∧
        (read_iter wc n).current_temperature < wc.target_temperature ∧
        (1/10 < wc.target_temperature - (read_iter wc n).current_temperature →
          (read_iter wc n).current_temperature < (read_iter wc (n+1)).current_temperature)) ∧
    (wc.target_temperature < wc.current_temperature →
      ∀ n, (read_iter wc (n+1)).current_temperature ≤ (read_iter wc n).current_temperature ∧
        wc.target_temperature < (read_iter wc n).current_temperature ∧
        (1/10 < (read_iter wc n).current_temperature - wc.target_temperature →
          (read_iter wc (n+1)).current_temperature < (read_iter wc n).current_temperature)) := by
  constructor
  · intro hlt
    have hbelow : ∀ n, (read_iter wc n).current_temperature < wc.target_temperature := by
      intro n
      induction n with
      | zero => exact hlt
      | succ n ih =>
          have hp := read_iter_preserves wc n
          have hstep := read_step_heat (read_iter wc n)
            (by rw [hp.2]; exact hf) (by rw [hp.1]; exact ih)
          rw [hp.1] at hstep
          exact hstep.2.1
    intro n
    have hp := read_iter_preserves wc n
    have hstep := read_step_heat (read_iter wc n)
      (by rw [hp.2]; exact hf) (by rw [hp.1]; exact hbelow n)
    rw [hp.1] at hstep
    exact ⟨hstep.1, hbelow n, hstep.2.2⟩
  · intro hgt
    have habove : ∀ n, wc.target_temperature < (read_iter wc n).current_temperature := by
      intro n
      induction n with
      | zero => exact hgt
      | succ n ih =>
          have hp := read_iter_preserves wc n
          have hstep := read_step_cool (read_iter wc n)
            (by rw [hp.2]; exact hf) (by rw [hp.1]; exact ih)
          rw [hp.1] at hstep
          exact hstep.2.1
    intro n
    have hp := read_iter_preserves wc n
    have hstep := read_step_cool (read_iter wc n)
      (by rw [hp.2]; exact hf) (by rw [hp.1]; exact habove n)
    rw [hp.1] at hstep
    exact ⟨hstep.1, habove n, hstep.2.2⟩

/-- C8, witness: the sample controller starts 18 °C below its 38 °C
target; the first read step strictly increases the measured temperature
and stays below the target. -/
theorem c8_witness :
    (read_iter wcActive 0).current_temperature <
      (read_iter wcActive 1).current_temperature ∧
    (read_iter wcActive 0).current_temperature < wcActive.target_temperature := by
  have hf : wcActive.flow_state ≠ FlowState.STOPPED := by
    norm_num +decide [wcActive, wcSample, WaterController.init,
      WaterController.start_flow, WaterController.open_valves, WaterController.clamp]
  have hlt : wcActive.current_temperature < wcActive.target_temperature := by
    norm_num [wcActive, wcSample, WaterController.init, WaterController.start_flow,
      WaterController.open_valves, WaterController.clamp]
  have h := (c8_monotone_no_overshoot wcActive hf).1 hlt 0
  refine ⟨h.2.2 ?_, h.2.1⟩
  show 1/10 < wcActive.target_temperature - (read_iter wcActive 0).current_temperature
  norm_num [read_iter, wcActive, wcSample, WaterController.init, WaterController.start_flow,
    WaterController.open_valves, WaterController.clamp]

/-! #### Helper lemmas about the safety monitor -/

/-- The door step of `_read_sensors` touches only `door_state` and
`last_door_open_time`. -/
theorem read_door_preserves (m : SafetyMonitor) (now : ℚ) :
    (m.read_door now).1.leak_detected = m.leak_detected ∧
    (m.read_door now).1.emergency_stop_active = m.emergency_stop_active ∧
    (m.read_door now).1.shower_start_time = m.shower_start_time ∧
    (m.read_door now).1.max_shower_duration = m.max_shower_duration ∧
    (m.read_door now).1.door_timeout = m.door_timeout ∧
    (m.read_door now).1.emergency_button_pressed = m.emergency_button_pressed ∧
    (m.read_door now).1.leak_sensor_active = m.leak_sensor_active ∧
    (m.read_door now).1.door_timer = m.door_timer := by
  simp only [SafetyMonitor.read_door]
  repeat' split
  all_goals exact ⟨rfl, rfl, rfl, rfl, rfl, rfl, rfl, rfl⟩

/-- The door step emits only door events. -/
theorem read_door_events (m : SafetyMonitor) (now : ℚ) :
    (m.read_door now).2 = [] ∨ (m.read_door now).2 = [Event.on_door_open] ∨
    (m.read_door now).2 = [Event.on_door_close] := by
  simp only [SafetyMonitor.read_door]
  repeat' split
  all_goals simp

/-- The leak step of `_read_sensors` touches only `leak_detected`. -/
theorem read_leak_preserves (m : SafetyMonitor) :
    m.read_leak.1.emergency_stop_active = m.emergency_stop_active ∧
    m.read_leak.1.shower_start_time = m.shower_start_time ∧
    m.read_leak.1.max_shower_duration = m.max_shower_duration ∧
    m.read_leak.1.door_timeout = m.door_timeout ∧
    m.read_leak.1.emergency_button_pressed = m.emergency_button_pressed ∧
    m.read_leak.1.leak_sensor_active = m.leak_sensor_active ∧
    m.read_leak.1.door_state = m.door_state ∧
    m.read_leak.1.door_timer = m.door_timer := by
  simp only [SafetyMonitor.read_leak]
  split
  · exact ⟨rfl, rfl, rfl, rfl, rfl, rfl, rfl, rfl⟩
  · exact ⟨rfl, rfl, rfl, rfl, rfl, rfl, rfl, rfl⟩

/-- After the leak step, an active leak sensor has latched
`leak_detected`. -/
theorem read_leak_latched (m : SafetyMonitor) (hl : m.leak_sensor_active = true) :
    m.read_leak.1.leak_detected = true := by
  simp only [SafetyMonitor.read_leak]
  split
  · rfl
  · rename_i h
    cases hld : m.leak_detected
    · exact absurd ⟨hl, by simp [hld]⟩ h
    · rfl

/-- The leak step emits only the leak event. -/
theorem read_leak_events (m : SafetyMonitor) :
    m.read_leak.2 = [] ∨ m.read_leak.2 = [Event.on_leak_detected] := by
  simp only [SafetyMonitor.read_leak]
  split <;> simp

/-- The button step with the button pressed: `emergency_stop` runs. -/
theorem read_button_pressed (m : SafetyMonitor)
    (hb : m.emergency_button_pressed = true) :
    m.read_button =
      ({ m with emergency_stop_active := true, safety_state := SafetyState.EMERGENCY },
       [Event.on_emergency_stop "Emergency button pressed"]) := by
  simp only [SafetyMonitor.read_button, SafetyMonitor.emergency_stop, hb]
  simp

/-- The button step with the button released is a no-op. -/
theorem read_button_released (m : SafetyMonitor)
    (hb : m.emergency_button_pressed = false) :
    m.read_button = (m, []) := by
  simp only [SafetyMonitor.read_button, hb]
  simp

/-- The button step never clears the latch or the other fields. -/
theorem read_button_preserves (m : SafetyMonitor) :
    m.read_button.1.shower_start_time = m.shower_start_time ∧
    m.read_button.1.max_shower_duration = m.max_shower_duration ∧
    m.read_button.1.door_timeout = m.door_timeout ∧
    m.read_button.1.leak_detected = m.leak_detected ∧
    m.read_button.1.leak_sensor_active = m.leak_sensor_active ∧
    m.read_button.1.emergency_button_pressed = m.emergency_button_pressed ∧
    m.read_button.1.door_state = m.door_state ∧
    m.read_button.1.door_timer = m.door_timer := by
  simp only [SafetyMonitor.read_button, SafetyMonitor.emergency_stop]
  split
  · exact ⟨rfl, rfl, rfl, rfl, rfl, rfl, rfl, rfl⟩
  · exact ⟨rfl, rfl, rfl, rfl, rfl, rfl, rfl, rfl⟩

/-- `_read_sensors` preserves the session and configuration fields. -/
theorem sm_read_preserves (m : SafetyMonitor) (now : ℚ) :
    (m.read_sensors now).1.shower_start_time = m.shower_start_time ∧
    (m.read_sensors now).1.max_shower_duration = m.max_shower_duration ∧
    (m.read_sensors now).1.door_timeout = m.door_timeout ∧
    (m.read_sensors now).1.emergency_button_pressed = m.emergency_button_pressed ∧
    (m.read_sensors now).1.leak_sensor_active = m.leak_sensor_active := by
  simp only [SafetyMonitor.read_sensors]
  obtain ⟨_, _, hd3, hd4, hd5, hd6, hd7, _⟩ := read_door_preserves m now
  obtain ⟨_, hl2, hl3, hl4, hl5, hl6, _, _⟩ := read_leak_preserves (m.read_door now).1
  obtain ⟨hb1, hb2, hb3, _, hb5, hb6, _, _⟩ := read_button_preserves (m.read_door now).1.read_leak.1
  exact ⟨hb1.trans (hl2.trans hd3), hb2.trans (hl3.trans hd4),
    hb3.trans (hl4.trans hd5), hb6.trans (hl5.trans hd6), hb5.trans (hl6.trans hd7)⟩

/-- A pressed emergency button latches `emergency_stop_active` during
`_read_sensors`. -/
theorem sm_read_button_active (m : SafetyMonitor) (now : ℚ)
    (hb : m.emergency_button_pressed = true) :
    (m.read_sensors now).1.emergency_stop_active = true := by
  simp only [SafetyMonitor.read_sensors]
  have hb2 : (m.read_door now).1.read_leak.1.emergency_button_pressed = true := by
    rw [(read_leak_preserves _).2.2.2.2.1, (read_door_preserves m now).2.2.2.2.2.1]
    exact hb
  rw [read_button_pressed _ hb2]

/-- An already-set latch survives `_read_sensors`. -/
theorem sm_read_active_mono (m : SafetyMonitor) (now : ℚ)
    (ha : m.emergency_stop_active = true) :
    (m.read_sensors now).1.emergency_stop_active = true := by
  simp only [SafetyMonitor.read_sensors]
  by_cases hb : (m.read_door now).1.read_leak.1.emergency_button_pressed = true
  · rw [read_button_pressed _ hb]
  · rw [read_button_released _ (by simpa using hb)]
    rw [(read_leak_preserves _).1, (read_door_preserves m now).2.1]
    exact ha

/-- With the button released, `_read_sensors` leaves the latch alone. -/
theorem sm_read_button_inactive (m : SafetyMonitor) (now : ℚ)
    (hb : m.emergency_button_pressed = false) :
    (m.read_sensors now).1.emergency_stop_active = m.emergency_stop_active := by
  simp only [SafetyMonitor.read_sensors]
  have hb2 : (m.read_door now).1.read_leak.1.emergency_button_pressed = false := by
    rw [(read_leak_preserves _).2.2.2.2.1, (read_door_preserves m now).2.2.2.2.2.1]
    exact hb
  rw [read_button_released _ hb2]
  rw [(read_leak_preserves _).1, (read_door_preserves m now).2.1]

/-- An active leak sensor leaves `leak_detected` latched after
`_read_sensors`. -/
theorem sm_read_leak (m : SafetyMonitor) (now : ℚ)
    (hl : m.leak_sensor_active = true) :
    (m.read_sensors now).1.leak_detected = true := by
  simp only [SafetyMonitor.read_sensors]
  rw [(read_button_preserves _).2.2.2.1]
  exact read_leak_latched _ (by
    rw [(read_door_preserves m now).2.2.2.2.2.2.1]
    exact hl)

/-- A pressed emergency button fires `on_emergency_stop` during
`_read_sensors` — on every call. -/
theorem sm_read_button_event (m : SafetyMonitor) (now : ℚ)
    (hb : m.emergency_button_pressed = true) :
    Event.on_emergency_stop "Emergency button pressed" ∈ (m.read_sensors now).2 := by
  simp only [SafetyMonitor.read_sensors]
  have hb2 : (m.read_door now).1.read_leak.1.emergency_button_pressed = true := by
    rw [(read_leak_preserves _).2.2.2.2.1, (read_door_preserves m now).2.2.2.2.2.1]
    exact hb
  rw [read_button_pressed _ hb2]
  simp

/-- With the button released, `_read_sensors` fires no
`on_emergency_stop` event at all. -/
theorem sm_read_no_emergency_event (m : SafetyMonitor) (now : ℚ)
    (hb : m.emergency_button_pressed = false) (r : String) :
    Event.on_emergency_stop r ∉ (m.read_sensors now).2 := by
  simp only [SafetyMonitor.read_sensors]
  have hb2 : (m.read_door now).1.read_leak.1.emergency_button_pressed = false := by
    rw [(read_leak_preserves _).2.2.2.2.1, (read_door_preserves m now).2.2.2.2.2.1]
    exact hb
  rw [read_button_released _ hb2]
  rcases read_door_events m now with hd | hd | hd <;>
    rcases read_leak_events (m.read_door now).1 with hl | hl <;>
      simp [hd, hl]

/-- The duration step with no session is a no-op. -/
theorem check_duration_none (m : SafetyMonitor) (now : ℚ)
    (hs : m.shower_start_time = none) :
    m.check_duration now = (m, []) := by
  simp [SafetyMonitor.check_duration, hs]

/-- The duration step on an exceeded session calls `emergency_stop`. -/
theorem check_duration_expired (m : SafetyMonitor) (now t0 : ℚ)
    (hs : m.shower_start_time = some t0) (hd : m.max_shower_duration < now - t0) :
    m.check_duration now = m.emergency_stop "Maximum shower duration exceeded" := by
  simp only [SafetyMonitor.check_duration, hs]
  rw [if_pos hd]

/-- The duration step touches only the latch and the safety state. -/
theorem check_duration_preserves (m : SafetyMonitor) (now : ℚ) :
    (m.check_duration now).1.leak_detected = m.leak_detected ∧
    (m.check_duration now).1.door_state = m.door_state ∧
    (m.check_duration now).1.shower_start_time = m.shower_start_time ∧
    (m.check_duration now).1.door_timer = m.door_timer ∧
    (m.check_duration now).1.door_timeout = m.door_timeout := by
  simp only [SafetyMonitor.check_duration, SafetyMonitor.emergency_stop]
  repeat' split
  all_goals exact ⟨rfl, rfl, rfl, rfl, rfl⟩

/-- The duration step never clears the latch. -/
theorem check_duration_active_mono (m : SafetyMonitor) (now : ℚ)
    (h : m.emergency_stop_active = true) :
    (m.check_duration now).1.emergency_stop_active = true := by
  simp only [SafetyMonitor.check_duration, SafetyMonitor.emergency_stop]
  repeat' split
  all_goals simp_all

/-- The leak step of the check touches only the safety state. -/
theorem check_leak_preserves (m : SafetyMonitor) :
    m.check_leak.1.emergency_stop_active = m.emergency_stop_active ∧
    m.check_leak.1.leak_detected = m.leak_detected ∧
    m.check_leak.1.door_state = m.door_state ∧
    m.check_leak.1.shower_start_time = m.shower_start_time ∧
    m.check_leak.1.door_timer = m.door_timer := by
  simp only [SafetyMonitor.check_leak]
  split
  · exact ⟨rfl, rfl, rfl, rfl, rfl⟩
  · exact ⟨rfl, rfl, rfl, rfl, rfl⟩

/-- The leak step of the check emits only the warning event. -/
theorem check_leak_events (m : SafetyMonitor) :
    m.check_leak.2 = [] ∨
    m.check_leak.2 = [Event.on_safety_warning "Water leak detected"] := by
  simp only [SafetyMonitor.check_leak]
  split <;> simp

/-- The door step of the check touches only the door timer. -/
theorem check_door_preserves (m : SafetyMonitor) (now : ℚ) :
    (m.check_door now).emergency_stop_active = m.emergency_stop_active ∧
    (m.check_door now).leak_detected = m.leak_detected ∧
    (m.check_door now).safety_state = m.safety_state ∧
    (m.check_door now).shower_start_time = m.shower_start_time := by
  simp only [SafetyMonitor.check_door, SafetyMonitor.start_door_timer]
  split
  · exact ⟨rfl, rfl, rfl, rfl⟩
  · exact ⟨rfl, rfl, rfl, rfl⟩

/-- `_check_safety_conditions` never clears the latch. -/
theorem sm_check_active_mono (m : SafetyMonitor) (now : ℚ)
    (h : m.emergency_stop_active = true) :
    (m.check_safety_conditions now).1.emergency_stop_active = true := by
  simp only [SafetyMonitor.check_safety_conditions]
  rw [(check_door_preserves _ now).1, (check_leak_preserves _).1]
  exact check_duration_active_mono m now h

/-- An exceeded session duration makes `_check_safety_conditions` call
`emergency_stop`: the latch is set and the callback fires. -/
theorem sm_check_duration (m : SafetyMonitor) (now t0 : ℚ)
    (hs : m.shower_start_time = some t0) (hd : m.max_shower_duration < now - t0) :
    (m.check_safety_conditions now).1.emergency_stop_active = true ∧
    Event.on_emergency_stop "Maximum shower duration exceeded" ∈
      (m.check_safety_conditions now).2 := by
  simp only [SafetyMonitor.check_safety_conditions]
  rw [check_duration_expired m now t0 hs hd]
  constructor
  · rw [(check_door_preserves _ now).1, (check_leak_preserves _).1]
    rfl
  · simp [SafetyMonitor.emergency_stop]

/-- With no session, `_check_safety_conditions` does not touch the latch
or the leak flag and fires no `on_emergency_stop`. -/
theorem sm_check_no_session (m : SafetyMonitor) (now : ℚ)
    (hs : m.shower_start_time = none) :
    (m.check_safety_conditions now).1.emergency_stop_active = m.emergency_stop_active ∧
    (m.check_safety_conditions now).1.leak_detected = m.leak_detected ∧
    ∀ r, Event.on_emergency_stop r ∉ (m.check_safety_conditions now).2 := by
  simp only [SafetyMonitor.check_safety_conditions]
  rw [check_duration_none m now hs]
  refine ⟨?_, ?_, ?_⟩
  · rw [(check_door_preserves _ now).1, (check_leak_preserves _).1]
  · rw [(check_door_preserves _ now).2.1, (check_leak_preserves _).2.1]
  · intro r
    rcases check_leak_events m with hl | hl <;> simp [hl]

/-- `_update_safety_state` only rewrites `safety_state`. -/
theorem sm_update_preserves (m : SafetyMonitor) :
    m.update_safety_state.emergency_stop_active = m.emergency_stop_active ∧
    m.update_safety_state.leak_detected = m.leak_detected ∧
    m.update_safety_state.door_timer = m.door_timer ∧
    m.update_safety_state.shower_start_time = m.shower_start_time := by
  simp only [SafetyMonitor.update_safety_state]
  repeat' split
  all_goals exact ⟨rfl, rfl, rfl, rfl⟩

/-- `_update_safety_state` reports EMERGENCY whenever the latch is set. -/
theorem sm_update_emergency (m : SafetyMonitor)
    (h : m.emergency_stop_active = true) :
    m.update_safety_state.safety_state = SafetyState.EMERGENCY := by
  simp only [SafetyMonitor.update_safety_state, h]
  simp

/-- With the latch clear and a latched leak, `_update_safety_state`
reports DANGER — not EMERGENCY. -/
theorem sm_update_danger (m : SafetyMonitor)
    (h : m.emergency_stop_active = false) (hl : m.leak_detected = true) :
    m.update_safety_state.safety_state = SafetyState.DANGER := by
  simp only [SafetyMonitor.update_safety_state, h, hl]
  simp

/-! #### C1 -/

/-- C1, counterexample.  With the emergency button held down, every tick
calls `emergency_stop` and hence fires `on_emergency_stop` again: the
second tick, entered while the monitor is already in EMERGENCY, fires the
callback a second time — it is level-triggered, not once per entry. -/
theorem c1_counterexample :
    (mButton.tick 0).1.safety_state = SafetyState.EMERGENCY ∧
    (mButton.tick 0).2 = [Event.on_emergency_stop "Emergency button pressed"] ∧
    ((mButton.tick 0).1.tick (1/10)).2 =
      [Event.on_emergency_stop "Emergency button pressed"] := by
  refine ⟨?_, ?_, ?_⟩ <;>
    norm_num +decide [mButton, mSample, SafetyMonitor.init, SafetyMonitor.tick,
      SafetyMonitor.read_sensors, SafetyMonitor.read_door, SafetyMonitor.read_leak,
      SafetyMonitor.read_button, SafetyMonitor.check_safety_conditions,
      SafetyMonitor.check_duration, SafetyMonitor.check_leak, SafetyMonitor.check_door,
      SafetyMonitor.update_safety_state, SafetyMonitor.emergency_stop]

/-- C1, amended.  Each fatal trigger drives SafetyState to EMERGENCY, but
`on_emergency_stop` fires once per `emergency_stop` call, i.e. on every
tick while the trigger persists (level-triggered): a tick with the button
pressed ends in EMERGENCY and fires the callback — including ticks taken
while already in EMERGENCY; a tick with the session duration exceeded
does the same; an expired door timer with the door closed does the same;
a leak alone yields DANGER, not EMERGENCY, and never fires
`on_emergency_stop`. -/
theorem c1_emergency_level_triggered (m : SafetyMonitor) (now : ℚ) :
    (m.emergency_button_pressed = true →
      (m.tick now).1.safety_state = SafetyState.EMERGENCY ∧
      Event.on_emergency_stop "Emergency button pressed" ∈ (m.tick now).2) ∧
    (∀ t0, m.shower_start_time = some t0 → m.max_shower_duration < now - t0 →
      (m.tick now).1.safety_state = SafetyState.EMERGENCY ∧
      Event.on_emergency_stop "Maximum shower duration exceeded" ∈ (m.tick now).2) ∧
    (∀ t, m.door_timer = some t → t.expired = false →
      t.started_at + m.door_timeout ≤ now → m.door_state = SensorState.CLOSED →
      (m.fire_door_timer now).1.safety_state = SafetyState.EMERGENCY ∧
      (m.fire_door_timer now).2 =
        [Event.on_emergency_stop "Door timeout - Auto-shutoff"]) ∧
    (m.emergency_stop_active = false → m.emergency_button_pressed = false →
      m.shower_start_time = none → m.leak_sensor_active = true →
      (m.tick now).1.safety_state = SafetyState.DANGER ∧
      ∀ r, Event.on_emergency_stop r ∉ (m.tick now).2) := by
  refine ⟨?_, ?_, ?_, ?_⟩
  · intro hb
    have hra := sm_read_button_active m now hb
    have hca := sm_check_active_mono (m.read_sensors now).1 now hra
    constructor
    · show ((m.read_sensors now).1.check_safety_conditions now).1.update_safety_state.safety_state = _
      exact sm_update_emergency _ hca
    · show _ ∈ (m.read_sensors now).2 ++ ((m.read_sensors now).1.check_safety_conditions now).2
      exact List.mem_append_left _ (sm_read_button_event m now hb)
  · intro t0 hs hd
    have hss : (m.read_sensors now).1.shower_start_time = some t0 := by
      rw [(sm_read_preserves m now).1]; exact hs
    have hmax : (m.read_sensors now).1.max_shower_duration = m.max_shower_duration :=
      (sm_read_preserves m now).2.1
    obtain ⟨hca, hmem⟩ := sm_check_duration (m.read_sensors now).1 now t0 hss
      (by rw [hmax]; exact hd)
    constructor
    · show ((m.read_sensors now).1.check_safety_conditions now).1.update_safety_state.safety_state = _
      exact sm_update_emergency _ hca
    · show _ ∈ (m.read_sensors now).2 ++ ((m.read_sensors now).1.check_safety_conditions now).2
      exact List.mem_append_right _ hmem
  · intro t ht hexp hle hdoor
    simp only [SafetyMonitor.fire_door_timer, ht]
    rw [if_pos ⟨by simp [hexp], hle⟩]
    simp only [SafetyMonitor.door_timeout_handler]
    rw [if_pos hdoor]
    exact ⟨rfl, rfl⟩
  · intro ha hb hs hl
    have hra : (m.read_sensors now).1.emergency_stop_active = false := by
      rw [sm_read_button_inactive m now hb]; exact ha
    have hrl : (m.read_sensors now).1.leak_detected = true := sm_read_leak m now hl
    have hrs : (m.read_sensors now).1.shower_start_time = none := by
      rw [(sm_read_preserves m now).1]; exact hs
    obtain ⟨hc1, hc2, hc3⟩ := sm_check_no_session (m.read_sensors now).1 now hrs
    constructor
    · show ((m.read_sensors now).1.check_safety_conditions now).1.update_safety_state.safety_state = _
      exact sm_update_danger _ (hc1.trans hra) (hc2.trans hrl)
    · intro r
      show _ ∉ (m.read_sensors now).2 ++ ((m.read_sensors now).1.check_safety_conditions now).2
      rw [List.mem_append]
      rintro (hmem | hmem)
      · exact sm_read_no_emergency_event m now hb r hmem
      · exact hc3 r hmem

/-- C1, witness: a tick of the button-pressed sample monitor ends in
EMERGENCY with the callback fired. -/
theorem c1_witness :
    (mButton.tick 0).1.safety_state = SafetyState.EMERGENCY ∧
    Event.on_emergency_stop "Emergency button pressed" ∈ (mButton.tick 0).2 :=
  (c1_emergency_level_triggered mButton 0).1 rfl

/-! #### C4 -/

/-- C4, counterexample.  The claim says no operation other than a
clear-emergency operation (door closed, no leak, button released) clears
an active EMERGENCY — in particular not `stop_shower_session`.  But
`stop_shower_session` resets `safety_state` from EMERGENCY to SAFE
unconditionally (and no clear-emergency operation exists in the code). -/
theorem c4_counterexample :
    mEmergency.safety_state = SafetyState.EMERGENCY ∧
    mEmergency.stop_shower_session.safety_state = SafetyState.SAFE :=
  ⟨rfl, rfl⟩

/-- C4, amended.  The code exposes no clear-emergency operation.
`stop_shower_session` unconditionally cancels both timers and resets
`safety_state` to SAFE — even from an active EMERGENCY — but it leaves the
`emergency_stop_active` latch set, so the next `_update_safety_state`
(and hence the next control-loop tick) restores EMERGENCY; a tick never
clears the latch, so EMERGENCY is terminal under the control loop. -/
theorem c4_stop_session_clears_state_not_latch (m : SafetyMonitor) :
    m.stop_shower_session.safety_state = SafetyState.SAFE ∧
    m.stop_shower_session.door_timer = none ∧
    m.stop_shower_session.shower_start_time = none ∧
    m.stop_shower_session.emergency_stop_active = m.emergency_stop_active ∧
    (m.emergency_stop_active = true →
      m.stop_shower_session.update_safety_state.safety_state =
        SafetyState.EMERGENCY) ∧
    (∀ now, m.emergency_stop_active = true →
      (m.tick now).1.emergency_stop_active = true ∧
      (m.tick now).1.safety_state = SafetyState.EMERGENCY) := by
  refine ⟨rfl, rfl, rfl, rfl, ?_, ?_⟩
  · intro h
    exact sm_update_emergency _ (show m.stop_shower_session.emergency_stop_active = true from h)
  · intro now h
    have hra := sm_read_active_mono m now h
    have hca := sm_check_active_mono (m.read_sensors now).1 now hra
    constructor
    · show ((m.read_sensors now).1.check_safety_conditions now).1.update_safety_state.emergency_stop_active = true
      rw [(sm_update_preserves _).1]
      exact hca
    · show ((m.read_sensors now).1.check_safety_conditions now).1.update_safety_state.safety_state = _
      exact sm_update_emergency _ hca

/-- C4, witness: from the sample emergency state, `stop_shower_session`
shows SAFE, yet the next `_update_safety_state` restores EMERGENCY. -/
theorem c4_witness :
    mEmergency.stop_shower_session.update_safety_state.safety_state =
      SafetyState.EMERGENCY :=
  (c4_stop_session_clears_state_not_latch mEmergency).2.2.2.2.1 rfl

/-! #### C7 -/

/-- C7, counterexample.  The freshly initialized monitor has an UNKNOWN
door reading and no timer; `start_shower_session` nevertheless arms the
door timer — the claim that the timer is never armed while the door state
is unknown is false. -/
theorem c7_counterexample :
    mSample.door_state = SensorState.UNKNOWN ∧
    mSample.door_timer = none ∧
    (mSample.start_shower_session 0).door_timer =
      some { started_at := 0, expired := false } :=
  ⟨rfl, rfl, rfl⟩

/-- C7, amended.  `start_shower_session` arms the full-duration door timer
unconditionally, whatever the door state (UNKNOWN included); the unknown
state is treated as not-closed only at expiry: `_door_timeout_handler`
triggers the emergency stop only when the door reads CLOSED, and is a
no-op (no state change, no event) for OPEN or UNKNOWN. -/
theorem c7_door_timer_armed_unconditionally (m : SafetyMonitor) (now : ℚ) :
    (m.start_shower_session now).door_timer =
      some { started_at := now, expired := false } ∧
    (m.door_state ≠ SensorState.CLOSED → m.door_timeout_handler = (m, [])) := by
  constructor
  · rfl
  · intro h
    simp only [SafetyMonitor.door_timeout_handler]
    rw [if_neg h]

/-- C7, witness: starting a session on the fresh (door-UNKNOWN) monitor
arms the timer at once, while its expiry handler is a no-op on that
unknown door state. -/
theorem c7_witness :
    (mSample.start_shower_session 5).door_timer =
      some { started_at := 5, expired := false } ∧
    mSample.door_timeout_handler = (mSample, []) :=
  ⟨(c7_door_timer_armed_unconditionally mSample 5).1,
   (c7_door_timer_armed_unconditionally mSample 5).2 (by decide)⟩

/-! #### Helper lemmas about the composed system -/

/-- The system-level `_read_sensors` on a closed→open door edge with no
other trigger: the door timer is restarted (not cancelled) at `now` by the
coordinator's `_on_door_open` handler, and `on_door_open` fires. -/
theorem sys_read_open_edge (s : ShowerSystem) (now : ℚ)
    (hdoor : s.safety.door_state = SensorState.CLOSED)
    (hsens : s.safety.door_sensor_active = true)
    (hleak : s.safety.leak_sensor_active = false)
    (hbtn : s.safety.emergency_button_pressed = false) :
    (s.sys_read_sensors now).1 = { s with safety :=
      { s.safety with door_state := SensorState.OPEN,
                      last_door_open_time := some now,
                      door_timer := some { started_at := now, expired := false } } } ∧
    (s.sys_read_sensors now).2 = [Event.on_door_open] := by
  simp only [ShowerSystem.sys_read_sensors, SafetyMonitor.start_door_timer,
    hdoor, hsens, hleak, hbtn]
  norm_num +decide

/-- The system-level `_read_sensors` on an open/unknown→closed door edge
with no other trigger: a fresh full-duration door timer is armed at `now`
by the coordinator's `_on_door_close` handler — whether or not a session
is active — and `on_door_close` fires. -/
theorem sys_read_close_edge (s : ShowerSystem) (now : ℚ)
    (hdoor : s.safety.door_state ≠ SensorState.CLOSED)
    (hsens : s.safety.door_sensor_active = false)
    (hleak : s.safety.leak_sensor_active = false)
    (hbtn : s.safety.emergency_button_pressed = false) :
    (s.sys_read_sensors now).1 = { s with safety :=
      { s.safety with door_state := SensorState.CLOSED,
                      door_timer := some { started_at := now, expired := false } } } ∧
    (s.sys_read_sensors now).2 = [Event.on_door_close] := by
  simp only [ShowerSystem.sys_read_sensors, SafetyMonitor.start_door_timer,
    hsens, hleak, hbtn]
  norm_num +decide [hdoor]

/-- Within the duration bound the duration step is a no-op. -/
theorem sys_check_duration_ok (s : ShowerSystem) (now : ℚ)
    (hdur : ∀ t0, s.safety.shower_start_time = some t0 →
      now - t0 ≤ s.safety.max_shower_duration) :
    s.sys_check_duration now = (s, []) := by
  rcases hss : s.safety.shower_start_time with _ | t0
  · simp only [ShowerSystem.sys_check_duration, hss]
  · simp only [ShowerSystem.sys_check_duration, hss]
    rw [if_neg (not_lt.mpr (hdur t0 hss))]

/-- The leak step of the system check touches only the safety state. -/
theorem sys_check_leak_preserves (s : ShowerSystem) :
    s.sys_check_leak.safety.door_timer = s.safety.door_timer ∧
    s.sys_check_leak.safety.door_state = s.safety.door_state ∧
    s.sys_check_leak.safety.shower_start_time = s.safety.shower_start_time := by
  simp only [ShowerSystem.sys_check_leak]
  split
  · exact ⟨rfl, rfl, rfl⟩
  · exact ⟨rfl, rfl, rfl⟩

/-- The door step of the system check keeps the timer or restarts it at
`now`. -/
theorem sys_check_door_timer (s : ShowerSystem) (now : ℚ) :
    (s.sys_check_door now).safety.door_timer = s.safety.door_timer ∨
    (s.sys_check_door now).safety.door_timer =
      some { started_at := now, expired := false } := by
  simp only [ShowerSystem.sys_check_door, SafetyMonitor.start_door_timer]
  split
  · right; rfl
  · left; rfl

/-- The system-level `_check_safety_conditions` within the duration
bound: no event fires, and a timer freshly armed at `now` stays armed at
`now` (the door branch can only re-arm it with the same value). -/
theorem sys_check_timer (s : ShowerSystem) (now : ℚ)
    (hdur : ∀ t0, s.safety.shower_start_time = some t0 →
      now - t0 ≤ s.safety.max_shower_duration)
    (hti : s.safety.door_timer = some { started_at := now, expired := false }) :
    (s.sys_check_safety_conditions now).1.safety.door_timer =
      some { started_at := now, expired := false } ∧
    (s.sys_check_safety_conditions now).2 = [] := by
  simp only [ShowerSystem.sys_check_safety_conditions]
  rw [sys_check_duration_ok s now hdur]
  constructor
  · rcases sys_check_door_timer s.sys_check_leak now with h | h
    · rw [h, (sys_check_leak_preserves s).1]
      exact hti
    · exact h
  · rfl

/-! #### C5 -/

/-- C5, counterexample.  `start_shower` has no session guard: a second
call without an intervening `stop_shower` succeeds, fires `on_flow_start`
again (valves reopened) and restarts the safety session timers. -/
theorem c5_counterexample :
    (sysSample.start_shower 38 none 0).1.shower_active = true ∧
    ((sysSample.start_shower 38 none 0).1.start_shower 38 none 5).2 =
      [Event.on_flow_start 38] ∧
    ((sysSample.start_shower 38 none 0).1.start_shower 38 none 5).1.safety.door_timer =
      some { started_at := 5, expired := false } ∧
    ((sysSample.start_shower 38 none 0).1.start_shower 38 none 5).1.safety.shower_start_time =
      some 5 := by
  refine ⟨rfl, ?_, rfl, rfl⟩
  norm_num [sysSample, wcSample, mSample, WaterController.init, SafetyMonitor.init,
    ShowerSystem.start_shower, WaterController.start_flow, WaterController.open_valves,
    WaterController.clamp, SafetyMonitor.start_shower_session, SafetyMonitor.start_door_timer]

/-- C5, amended.  `start_shower` never fails: from any state — in
particular with a session already active — it re-targets and reopens the
valves (mixer reset to 0.5, flow set to ADJUSTING), fires `on_flow_start`
again, restarts the safety session timers, and leaves the session flag
set.  No `SessionAlreadyActive` error exists. -/
theorem c5_no_session_guard (s : ShowerSystem) (t : ℚ)
    (src : Option String) (now : ℚ) :
    (s.start_shower t src now).1.shower_active = true ∧
    Event.on_flow_start (s.water.clamp t) ∈ (s.start_shower t src now).2 ∧
    (s.start_shower t src now).1.water.valve_state = ValveState.OPEN ∧
    (s.start_shower t src now).1.water.flow_state = FlowState.ADJUSTING ∧
    (s.start_shower t src now).1.water.mixer_valve_position = 1/2 ∧
    (s.start_shower t src now).1.safety.shower_start_time = some now ∧
    (s.start_shower t src now).1.safety.door_timer =
      some { started_at := now, expired := false } := by
  refine ⟨rfl, ?_, rfl, rfl, rfl, rfl, rfl⟩
  simp only [ShowerSystem.start_shower, WaterController.start_flow,
    WaterController.open_valves]
  exact List.mem_append_left _ (List.mem_singleton.mpr rfl)

/-! #### C6 -/

/-- C6, counterexample.  With no session active (`shower_start_time =
none`, `shower_active = false`), a door-close edge still arms the door
timer through the coordinator's `_on_door_close` handler — contradicting
"when no session is active the DoorTimer is never started". -/
theorem c6_counterexample :
    sysNoSession.safety.shower_start_time = none ∧
    sysNoSession.shower_active = false ∧
    sysNoSession.safety.door_timer = none ∧
    (sysNoSession.safety_tick 7).1.safety.door_timer =
      some { started_at := 7, expired := false } ∧
    (sysNoSession.safety_tick 7).2 = [Event.on_door_close] := by
  refine ⟨rfl, rfl, rfl, ?_, ?_⟩ <;>
    norm_num +decide [sysNoSession, sysSample, wcSample, mSample, WaterController.init,
      SafetyMonitor.init, ShowerSystem.safety_tick, ShowerSystem.sys_read_sensors,
      ShowerSystem.sys_check_safety_conditions, ShowerSystem.sys_check_duration,
      ShowerSystem.sys_check_leak, ShowerSystem.sys_check_door,
      SafetyMonitor.start_door_timer, SafetyMonitor.update_safety_state]

/-- C6, amended.  On a safety tick with the button released, no leak and
the session duration within bounds: a closed→open door edge fires
`on_door_open` and restarts (does not cancel) the door timer with a full
countdown from `now`; an open/unknown→closed edge fires `on_door_close`
and arms a fresh full-duration timer from `now` — the countdown always
restarts from the most recent closure — and this happens whether or not a
session is active; the timer never fires early: before
`started_at + door_timeout` the timer task does nothing. -/
theorem c6_door_edges (s : ShowerSystem) (now : ℚ)
    (hleak : s.safety.leak_sensor_active = false)
    (hbtn : s.safety.emergency_button_pressed = false)
    (hdur : ∀ t0, s.safety.shower_start_time = some t0 →
      now - t0 ≤ s.safety.max_shower_duration) :
    (s.safety.door_state = SensorState.CLOSED → s.safety.door_sensor_active = true →
      (s.safety_tick now).1.safety.door_timer =
        some { started_at := now, expired := false } ∧
      (s.safety_tick now).2 = [Event.on_door_open]) ∧
    (s.safety.door_state ≠ SensorState.CLOSED → s.safety.door_sensor_active = false →
      (s.safety_tick now).1.safety.door_timer =
        some { started_at := now, expired := false } ∧
      (s.safety_tick now).2 = [Event.on_door_close]) ∧
    (∀ t, s.safety.door_timer = some t → t.expired = false →
      now < t.started_at + s.safety.door_timeout →
      s.sys_fire_door_timer now = (s, [])) := by
  refine ⟨?_, ?_, ?_⟩
  · intro hdoor hsens
    obtain ⟨hstate, hevs⟩ := sys_read_open_edge s now hdoor hsens hleak hbtn
    have hdur2 : ∀ t0, (s.sys_read_sensors now).1.safety.shower_start_time = some t0 →
        now - t0 ≤ (s.sys_read_sensors now).1.safety.max_shower_duration := by
      rw [hstate]; exact hdur
    have hti0 : (s.sys_read_sensors now).1.safety.door_timer =
        some { started_at := now, expired := false } := by
      rw [hstate]
    obtain ⟨hti, hce⟩ := sys_check_timer (s.sys_read_sensors now).1 now hdur2 hti0
    constructor
    · show ((s.sys_read_sensors now).1.sys_check_safety_conditions now).1.safety.update_safety_state.door_timer = _
      rw [(sm_update_preserves _).2.2.1, hti]
    · show (s.sys_read_sensors now).2 ++ ((s.sys_read_sensors now).1.sys_check_safety_conditions now).2 = _
      rw [hevs, hce]
      rfl
  · intro hdoor hsens
    obtain ⟨hstate, hevs⟩ := sys_read_close_edge s now hdoor hsens hleak hbtn
    have hdur2 : ∀ t0, (s.sys_read_sensors now).1.safety.shower_start_time = some t0 →
        now - t0 ≤ (s.sys_read_sensors now).1.safety.max_shower_duration := by
      rw [hstate]; exact hdur
    have hti0 : (s.sys_read_sensors now).1.safety.door_timer =
        some { started_at := now, expired := false } := by
      rw [hstate]
    obtain ⟨hti, hce⟩ := sys_check_timer (s.sys_read_sensors now).1 now hdur2 hti0
    constructor
    · show ((s.sys_read_sensors now).1.sys_check_safety_conditions now).1.safety.update_safety_state.door_timer = _
      rw [(sm_update_preserves _).2.2.1, hti]
    · show (s.sys_read_sensors now).2 ++ ((s.sys_read_sensors now).1.sys_check_safety_conditions now).2 = _
      rw [hevs, hce]
      rfl
  · intro t ht hexp hlt
    simp only [ShowerSystem.sys_fire_door_timer, ht]
    rw [if_neg ?_]
    rintro ⟨_, hc⟩
    exact absurd hc (not_le.mpr hlt)

/-- C6, witness: mid-session with the door closed and its timer armed at
time 0, the door opening at time 5 restarts the timer from 5 (it is not
cancelled) and fires `on_door_open`; and the armed timer does nothing
before its 600 s deadline. -/
theorem c6_witness :
    (sysDoorOpening.safety_tick 5).1.safety.door_timer =
      some { started_at := 5, expired := false } ∧
    (sysDoorOpening.safety_tick 5).2 = [Event.on_door_open] ∧
    sysDoorOpening.sys_fire_door_timer 5 = (sysDoorOpening, []) := by
  have h := c6_door_edges sysDoorOpening 5 rfl rfl ?_
  · refine ⟨(h.1 rfl rfl).1, (h.1 rfl rfl).2, ?_⟩
    refine h.2.2 { started_at := 0, expired := false } rfl rfl ?_
    show (5 : ℚ) < 0 + sysDoorOpening.safety.door_timeout
    norm_num [sysDoorOpening, mSample, SafetyMonitor.init]
  · intro t0 ht0
    have : t0 = 0 := by
      have : some (0 : ℚ) = some t0 := ht0
      exact (Option.some_injective _ this.symm)
    rw [this]
    show (5 : ℚ) - 0 ≤ sysDoorOpening.safety.max_shower_duration
    norm_num [sysDoorOpening, mSample, SafetyMonitor.init]

end ShowerOS
